import Mathlib

/-!
Shallow embedding of the numerical core of the investment-projection
calculator (`src/lib/calculos.ts`) and proofs of the specified properties.

JavaScript `number` values are modelled as exact rationals (`ℚ`).  The one
operation that leaves the rationals is `Math.pow(x, 1/12)` (annual→monthly
rate conversion); the whole development is therefore parametric in a
function `pw : ℚ → ℚ` standing for the twelfth root `x ↦ x^(1/12)`.
Whenever a property needs a fact about the real twelfth root (only
`pw 1 = 1` ever arises), it is taken as an explicit hypothesis.
`Number.isFinite`, which the rate solver consults, is likewise abstracted
as a boolean predicate `isFin : ℚ → Bool` (exact rationals never overflow,
floats do).
-/

/-- The five contribution-growth policies (`PoliticaAporte` in
`src/lib/calculos.ts`, lines 39–44). -/
inductive PoliticaAporte : Type
  | constante : PoliticaAporte
  | mensal_pct (mensalPct : ℚ) : PoliticaAporte
  | anual_pct (anualPct : ℚ) : PoliticaAporte
  | anual_inflacao : PoliticaAporte
  | anual_real (realExtra : ℚ) : PoliticaAporte
deriving DecidableEq

/-- `inflacaoAnualDoAno` (lines 27–31): annual inflation for a given year
index, from the default rate and an optional table.  A missing table and
an empty table behave identically in the source, so the table is a plain
list (empty = absent). -/
def inflacaoAnualDoAno (anoIndex : ℕ) (inflacaoPadrao : ℚ) (tabela : List ℚ) : ℚ :=
  if tabela.length = 0 then inflacaoPadrao
  else if anoIndex - 1 < tabela.length then tabela.getD (anoIndex - 1) 0
  else tabela.getD (tabela.length - 1) 0

/-- `inflacaoMensalDoMes` (lines 33–37): year = ⌈mes/12⌉, then the annual
rate is converted by `(1+ia)^(1/12) − 1`, here `pw (1+ia) − 1`. -/
def inflacaoMensalDoMes (pw : ℚ → ℚ) (mes : ℕ) (inflacaoPadrao : ℚ) (tabela : List ℚ) : ℚ :=
  pw (1 + inflacaoAnualDoAno ((mes + 11) / 12) inflacaoPadrao tabela) - 1

/-- `aporteNoMes` (lines 46–78): the contribution for month `mes` under a
policy.  The adjustment-year index is `⌊mes/12⌋` (Nat division). -/
def aporteNoMes (mes : ℕ) (base : ℚ) (politica : PoliticaAporte)
    (inflacaoAnual : ℚ) (inflacaoTabela : List ℚ) : ℚ :=
  let anosDecorridosAjuste := mes / 12
  match politica with
  | .constante => base
  | .mensal_pct g => base * (1 + g) ^ (mes - 1)
  | .anual_pct g => base * (1 + g) ^ anosDecorridosAjuste
  | .anual_inflacao =>
      base * (List.range anosDecorridosAjuste).foldl
        (fun fator k => fator * (1 + inflacaoAnualDoAno (k + 1) inflacaoAnual inflacaoTabela)) 1
  | .anual_real extra =>
      base * (List.range anosDecorridosAjuste).foldl
        (fun fator k =>
          fator * ((1 + inflacaoAnualDoAno (k + 1) inflacaoAnual inflacaoTabela) * (1 + extra))) 1

/-- One row of the projection series (`ProjecaoDado`, lines 80–86). -/
structure ProjecaoDado : Type where
  mes : ℕ
  saldo : ℚ
  contribuicoesAcum : ℚ
  ganhosAcum : ℚ
  aporte : ℚ
deriving DecidableEq

/-- Parameter record of `calcularProjecao` (lines 88–110). -/
structure ProjecaoParams : Type where
  montanteInicial : ℚ
  aporteMensal : ℚ
  rentabAnual : ℚ
  meta : ℚ
  anosLimite : ℚ
  contribuicaoNoInicio : Bool
  usarTaxaReal : Bool
  inflacaoAnual : ℚ
  inflacaoTabela : List ℚ
  politicaAporte : PoliticaAporte

/-- Horizon in months: `Math.max(1, Math.floor(anosLimite * 12))` (line 117). -/
def mesesLimiteDef (anosLimite : ℚ) : ℕ :=
  max 1 (Int.toNat ⌊anosLimite * 12⌋)

/-- The effective monthly rate used in month `m` of the projection loop
(line 128): the real-rate correction of the constant nominal monthly rate
when `usarTaxaReal`, else that constant rate. -/
def taxaEfetivaDef (pw : ℚ → ℚ) (p : ProjecaoParams) (m : ℕ) : ℚ :=
  if p.usarTaxaReal then
    (1 + (pw (1 + p.rentabAnual) - 1)) /
      (1 + inflacaoMensalDoMes pw m p.inflacaoAnual p.inflacaoTabela) - 1
  else pw (1 + p.rentabAnual) - 1

/-- The balance / cumulative-contribution update of one loop iteration
(lines 130–140), as a function on the pair (saldo, contribuicoesAcum). -/
def stepSaldo (pw : ℚ → ℚ) (p : ProjecaoParams) (m : ℕ) (sc : ℚ × ℚ) : ℚ × ℚ :=
  let taxaMensalEfetiva := taxaEfetivaDef pw p m
  let aporteMes := aporteNoMes m p.aporteMensal p.politicaAporte p.inflacaoAnual p.inflacaoTabela
  if p.contribuicaoNoInicio then
    ((sc.1 + aporteMes) * (1 + taxaMensalEfetiva), sc.2 + aporteMes)
  else
    (sc.1 * (1 + taxaMensalEfetiva) + aporteMes, sc.2 + aporteMes)

/-- Mutable state of the `calcularProjecao` loop (lines 113–127). -/
structure ProjState : Type where
  saldo : ℚ
  contribuicoesAcum : ℚ
  dados : List ProjecaoDado
  mesAlvo : Option ℕ
  somaInflacaoMensal : ℚ

/-- Body of the `for` loop of `calcularProjecao` for month `m`
(lines 125–146). -/
def calcProjStep (pw : ℚ → ℚ) (p : ProjecaoParams) (st : ProjState) (m : ℕ) : ProjState :=
  let inflMensal := inflacaoMensalDoMes pw m p.inflacaoAnual p.inflacaoTabela
  let aporteMes := aporteNoMes m p.aporteMensal p.politicaAporte p.inflacaoAnual p.inflacaoTabela
  let sc := stepSaldo pw p m (st.saldo, st.contribuicoesAcum)
  { saldo := sc.1
    contribuicoesAcum := sc.2
    dados := st.dados ++ [{ mes := m, saldo := sc.1, contribuicoesAcum := sc.2,
                            ganhosAcum := sc.1 - sc.2, aporte := aporteMes }]
    mesAlvo := if st.mesAlvo = none ∧ sc.1 ≥ p.meta then some m else st.mesAlvo
    somaInflacaoMensal := st.somaInflacaoMensal + inflMensal }

/-- State before the loop: seed record 0 already pushed (lines 113–123). -/
def projInit (p : ProjecaoParams) : ProjState :=
  { saldo := p.montanteInicial
    contribuicoesAcum := p.montanteInicial
    dados := [{ mes := 0, saldo := p.montanteInicial,
                contribuicoesAcum := p.montanteInicial,
                ganhosAcum := p.montanteInicial - p.montanteInicial, aporte := 0 }]
    mesAlvo := if p.montanteInicial ≥ p.meta then some 0 else none
    somaInflacaoMensal := 0 }

/-- The whole loop of `calcularProjecao`, months 1..n. -/
def calcProjLoop (pw : ℚ → ℚ) (p : ProjecaoParams) (n : ℕ) : ProjState :=
  (List.range n).foldl (fun st i => calcProjStep pw p st (i + 1)) (projInit p)

/-- Result record of `calcularProjecao` (line 150). -/
structure ProjecaoResultado : Type where
  dados : List ProjecaoDado
  mesAlvo : Option ℕ
  taxaMensalNominalConst : ℚ
  taxaMensalInflacaoMedia : ℚ

/-- `calcularProjecao` (lines 88–151). -/
def calcularProjecao (pw : ℚ → ℚ) (p : ProjecaoParams) : ProjecaoResultado :=
  let mesesLimite := mesesLimiteDef p.anosLimite
  let st := calcProjLoop pw p mesesLimite
  { dados := st.dados
    mesAlvo := st.mesAlvo
    taxaMensalNominalConst := pw (1 + p.rentabAnual) - 1
    taxaMensalInflacaoMedia := st.somaInflacaoMensal / (max 1 mesesLimite : ℕ) }

/-- Specification-side recursion: (saldo, contribuicoesAcum) after month
`m`'s update; month 0 is the seed state. -/
def saldoContribIter (pw : ℚ → ℚ) (p : ProjecaoParams) : ℕ → ℚ × ℚ
  | 0 => (p.montanteInicial, p.montanteInicial)
  | m + 1 => stepSaldo pw p (m + 1) (saldoContribIter pw p m)

/-- Specification-side recursion mirroring the `mesAlvo` update. -/
def mesAlvoIter (pw : ℚ → ℚ) (p : ProjecaoParams) : ℕ → Option ℕ
  | 0 => if p.montanteInicial ≥ p.meta then some 0 else none
  | m + 1 =>
      if mesAlvoIter pw p m = none ∧ (saldoContribIter pw p (m + 1)).1 ≥ p.meta then some (m + 1)
      else mesAlvoIter pw p m

/-- Specification-side recursion mirroring the running inflation sum. -/
def somaInflIter (pw : ℚ → ℚ) (p : ProjecaoParams) : ℕ → ℚ
  | 0 => 0
  | m + 1 => somaInflIter pw p m + inflacaoMensalDoMes pw (m + 1) p.inflacaoAnual p.inflacaoTabela

/-- The record of month `m` as determined by the recursions. -/
def recordDef (pw : ℚ → ℚ) (p : ProjecaoParams) (m : ℕ) : ProjecaoDado :=
  { mes := m
    saldo := (saldoContribIter pw p m).1
    contribuicoesAcum := (saldoContribIter pw p m).2
    ganhosAcum := (saldoContribIter pw p m).1 - (saldoContribIter pw p m).2
    aporte := if m = 0 then 0
              else aporteNoMes m p.aporteMensal p.politicaAporte p.inflacaoAnual p.inflacaoTabela }

theorem calcProjLoop_zero (pw : ℚ → ℚ) (p : ProjecaoParams) :
    calcProjLoop pw p 0 = projInit p := rfl

theorem calcProjLoop_succ (pw : ℚ → ℚ) (p : ProjecaoParams) (n : ℕ) :
    calcProjLoop pw p (n + 1) = calcProjStep pw p (calcProjLoop pw p n) (n + 1) := by
  unfold calcProjLoop
  rw [List.range_succ, List.foldl_append]
  rfl

/-- Loop invariant: the imperative loop state after `n` iterations is
exactly described by the four specification recursions. -/
theorem calcProjLoop_eq (pw : ℚ → ℚ) (p : ProjecaoParams) (n : ℕ) :
    calcProjLoop pw p n =
      { saldo := (saldoContribIter pw p n).1
        contribuicoesAcum := (saldoContribIter pw p n).2
        dados := (List.range (n + 1)).map (recordDef pw p)
        mesAlvo := mesAlvoIter pw p n
        somaInflacaoMensal := somaInflIter pw p n } := by
  induction n with
  | zero =>
      simp only [calcProjLoop_zero, projInit]
      rfl
  | succ n ih =>
      rw [calcProjLoop_succ, ih]
      simp only [calcProjStep, saldoContribIter, mesAlvoIter, somaInflIter]
      refine ProjState.mk.injEq .. |>.mpr ⟨?_, ?_, ?_, ?_, ?_⟩
      · rfl
      · rfl
      · conv_rhs => rw [List.range_succ, List.map_append]
        congr 1
      · rfl
      · rfl

/-- Projection of `calcularProjecao` to its series. -/
theorem calcularProjecao_dados (pw : ℚ → ℚ) (p : ProjecaoParams) :
    (calcularProjecao pw p).dados =
      (List.range (mesesLimiteDef p.anosLimite + 1)).map (recordDef pw p) := by
  simp [calcularProjecao, calcProjLoop_eq]

/-- Element `m` of the series is the record of month `m`. -/
theorem calcularProjecao_dados_getElem (pw : ℚ → ℚ) (p : ProjecaoParams) (m : ℕ)
    (h : m ≤ mesesLimiteDef p.anosLimite) :
    (calcularProjecao pw p).dados[m]? = some (recordDef pw p m) := by
  rw [calcularProjecao_dados, List.getElem?_map, List.getElem?_range (by omega)]
  rfl

/-- Projection of `calcularProjecao` to its target-reached month. -/
theorem calcularProjecao_mesAlvo (pw : ℚ → ℚ) (p : ProjecaoParams) :
    (calcularProjecao pw p).mesAlvo = mesAlvoIter pw p (mesesLimiteDef p.anosLimite) := by
  simp [calcularProjecao, calcProjLoop_eq]

/-- The iterated `mesAlvo` update implements first-match search over the
months 0..n. -/
theorem mesAlvoIter_eq_find (pw : ℚ → ℚ) (p : ProjecaoParams) (n : ℕ) :
    mesAlvoIter pw p n =
      (List.range (n + 1)).find? (fun m => decide ((saldoContribIter pw p m).1 ≥ p.meta)) := by
  induction n with
  | zero =>
      by_cases h : p.montanteInicial ≥ p.meta <;>
        simp [mesAlvoIter, saldoContribIter, List.range_succ, h]
  | succ n ih =>
      rw [List.range_succ, List.find?_append, ← ih]
      cases h : mesAlvoIter pw p n with
      | some x => simp [mesAlvoIter, h]
      | none =>
          by_cases hs : (saldoContribIter pw p (n + 1)).1 ≥ p.meta <;>
            simp [mesAlvoIter, h, hs]

/-- `Math.max(1, Math.round(anos * 12))` (lines 174 and 232): the horizon
month count used by both solvers.  JavaScript `Math.round` is
`⌊x + 1/2⌋`, which is Mathlib's `round` on `ℚ`. -/
def nMesesDef (anos : ℚ) : ℕ :=
  max 1 (Int.toNat (round (anos * 12)))

/-- The final-balance lookup of `aporteNecessario` (line 190):
`dados[nMeses]?.saldo ?? dados[dados.length - 1].saldo`.  The fallback
indexing is itself fallible in the source (it would dereference
`undefined` on an empty series), so it is modelled with an `Option`
result; `none` is the would-crash outcome. -/
def saldoFinalLookup (dados : List ProjecaoDado) (n : ℕ) : Option ℚ :=
  match dados[n]? with
  | some d => some d.saldo
  | none => dados[dados.length - 1]?.map ProjecaoDado.saldo

/-- Parameter record of `aporteNecessario` (lines 153–173). -/
structure AporteParams : Type where
  montanteInicial : ℚ
  rentabAnual : ℚ
  anos : ℚ
  meta : ℚ
  contribuicaoNoInicio : Bool
  usarTaxaReal : Bool
  inflacaoAnual : ℚ
  inflacaoTabela : List ℚ
  politicaAporte : PoliticaAporte

/-- The projection parameters `aporteNecessario` builds for a candidate
contribution `A` (lines 177–188). -/
def aporteProjParams (cfg : AporteParams) (A : ℚ) : ProjecaoParams :=
  { montanteInicial := cfg.montanteInicial
    aporteMensal := A
    rentabAnual := cfg.rentabAnual
    meta := cfg.meta
    anosLimite := cfg.anos
    contribuicaoNoInicio := cfg.contribuicaoNoInicio
    usarTaxaReal := cfg.usarTaxaReal
    inflacaoAnual := cfg.inflacaoAnual
    inflacaoTabela := cfg.inflacaoTabela
    politicaAporte := cfg.politicaAporte }

/-- `atingeMetaComAporte` (lines 176–192): success predicate of the
required-contribution search.  The unreachable crash branch of the
final-balance lookup is modelled as `false`. -/
def atingeMetaComAporte (pw : ℚ → ℚ) (cfg : AporteParams) (A : ℚ) : Bool :=
  let res := calcularProjecao pw (aporteProjParams cfg A)
  let nM := nMesesDef cfg.anos
  if (match res.mesAlvo with
      | some ma => decide (ma ≤ nM)
      | none => false) then true
  else
    match saldoFinalLookup res.dados nM with
    | some s => decide (s ≥ cfg.meta)
    | none => false

/-- Initial upper bound of the doubling phase:
`Math.max(100, meta / nMeses)` (line 195). -/
def aporteHiInicial (cfg : AporteParams) : ℚ :=
  max 100 (cfg.meta / (nMesesDef cfg.anos : ℕ))

/-- The doubling phase of `aporteNecessario` (lines 196–201): double `hi`
until the predicate holds, the 50-step safety budget runs out, or `hi`
exceeds `10^9`. -/
def doublePhase (P : ℚ → Bool) : ℕ → ℚ → ℚ
  | 0, hi => hi
  | fuel + 1, hi =>
      if P hi then hi
      else
        let hi2 := hi * 2
        if hi2 > 10 ^ 9 then hi2 else doublePhase P fuel hi2

/-- The bisection phase of `aporteNecessario` (lines 203–207), returning
the final `(lo, hi)` bracket. -/
def bisectAporte (P : ℚ → Bool) : ℕ → ℚ → ℚ → ℚ × ℚ
  | 0, lo, hi => (lo, hi)
  | i + 1, lo, hi =>
      let mid := (lo + hi) / 2
      if P mid then bisectAporte P i lo mid else bisectAporte P i mid hi

/-- `aporteNecessario` (lines 153–209). -/
def aporteNecessario (pw : ℚ → ℚ) (cfg : AporteParams) : ℚ :=
  let P := atingeMetaComAporte pw cfg
  let hi := doublePhase P 50 (aporteHiInicial cfg)
  (bisectAporte P 80 0 hi).2

/-- Parameter record of `taxaNecessaria` (lines 211–231). -/
structure TaxaParams : Type where
  montanteInicial : ℚ
  aporteMensal : ℚ
  anos : ℚ
  meta : ℚ
  contribuicaoNoInicio : Bool
  usarTaxaReal : Bool
  inflacaoAnual : ℚ
  inflacaoTabela : List ℚ
  politicaAporte : PoliticaAporte

/-- `saldoFinalComTaxa` (lines 234–249): the rate solver's inline
month-by-month simulation of the final balance for a candidate constant
nominal monthly rate. -/
def saldoFinalComTaxa (pw : ℚ → ℚ) (cfg : TaxaParams) (rMensalNominalConst : ℚ) : ℚ :=
  (List.range (nMesesDef cfg.anos)).foldl
    (fun saldo i =>
      let m := i + 1
      let inflMensal := inflacaoMensalDoMes pw m cfg.inflacaoAnual cfg.inflacaoTabela
      let rEfetivo := if cfg.usarTaxaReal then (1 + rMensalNominalConst) / (1 + inflMensal) - 1
                      else rMensalNominalConst
      let aporteMes := aporteNoMes m cfg.aporteMensal cfg.politicaAporte cfg.inflacaoAnual
                         cfg.inflacaoTabela
      if cfg.contribuicaoNoInicio then (saldo + aporteMes) * (1 + rEfetivo)
      else saldo * (1 + rEfetivo) + aporteMes)
    cfg.montanteInicial

/-- The bisection loop of `taxaNecessaria` (lines 264–275): state is
`(iterations left, lo, hi, found)`; a candidate whose simulated balance
fails the finiteness check ends the loop (`break`), keeping `found`. -/
def taxaLoop (isFin : ℚ → Bool) (sf : ℚ → ℚ) (meta : ℚ) :
    ℕ → ℚ → ℚ → Option ℚ → Option ℚ
  | 0, _, _, found => found
  | i + 1, lo, hi, found =>
      let mid := (lo + hi) / 2
      let s := sf mid
      if isFin s = false then found
      else if s ≥ meta then taxaLoop isFin sf meta i lo mid (some mid)
      else taxaLoop isFin sf meta i mid hi found

/-- Specification-side mirror of `taxaLoop`: does some candidate midpoint
evaluated during the loop produce a finite simulated balance ≥ meta? -/
def taxaLoopAcha (isFin : ℚ → Bool) (sf : ℚ → ℚ) (meta : ℚ) : ℕ → ℚ → ℚ → Bool
  | 0, _, _ => false
  | i + 1, lo, hi =>
      let mid := (lo + hi) / 2
      let s := sf mid
      if isFin s = false then false
      else if s ≥ meta then true
      else taxaLoopAcha isFin sf meta i mid hi

/-- The monthly rate found by `taxaNecessaria`'s search (the value of
`found` after the loop of lines 264–275). -/
def taxaNecessariaMensal (isFin : ℚ → Bool) (pw : ℚ → ℚ) (cfg : TaxaParams) : Option ℚ :=
  taxaLoop isFin (saldoFinalComTaxa pw cfg) cfg.meta 160 (-(9 : ℚ)/10) 1 none

/-- `inflacaoMediaAnual` (lines 254–256): unweighted mean of the schedule
when non-empty, else the flat default rate. -/
def inflacaoMediaAnualDef (cfg : TaxaParams) : ℚ :=
  if cfg.inflacaoTabela.length = 0 then cfg.inflacaoAnual
  else cfg.inflacaoTabela.foldl (fun acc v => acc + v) 0 / (cfg.inflacaoTabela.length : ℕ)

/-- `toAnualNominal` (lines 258–262): convert the found monthly rate to an
annual figure, compounding with average inflation when `usarTaxaReal`. -/
def toAnualNominal (cfg : TaxaParams) (rMensal : ℚ) : ℚ :=
  let rAnualReal := (1 + rMensal) ^ 12 - 1
  if cfg.usarTaxaReal then (1 + rAnualReal) * (1 + inflacaoMediaAnualDef cfg) - 1
  else rAnualReal

/-- `taxaNecessaria` (lines 211–278). -/
def taxaNecessaria (isFin : ℚ → Bool) (pw : ℚ → ℚ) (cfg : TaxaParams) : Option ℚ :=
  match taxaNecessariaMensal isFin pw cfg with
  | none => none
  | some found => some (toAnualNominal cfg found)

/-- Embeds the numeric clamping stage of `parseInflacaoTabela`
(line 24): after the string tokenizer splits the free text, strips
percent signs, converts decimal commas and discards non-numeric tokens,
each parsed value `x` is replaced by `Math.max(-0.99, x)`.  `xs` stands
for the list of parsed finite values; the string-processing stages are
outside the numeric model. -/
def parseInflacaoTabelaClamp (xs : List ℚ) : List ℚ :=
  xs.map (fun x => max (-(99 : ℚ)/100) x)

/-- C7: For every yearIndex ≥ 1, `inflacaoAnualDoAno` returns the default
rate when the schedule is absent/empty, the entry at `yearIndex − 1` when
that index is within the schedule, and the schedule's last element
otherwise (extrapolation holds the last known value indefinitely). -/
theorem C7_inflacao_anual_do_ano (anoIndex : ℕ) (_h1 : 1 ≤ anoIndex)
    (inflacaoPadrao : ℚ) (tabela : List ℚ) :
    (tabela = [] → inflacaoAnualDoAno anoIndex inflacaoPadrao tabela = inflacaoPadrao)
    ∧ (∀ h : anoIndex - 1 < tabela.length,
        inflacaoAnualDoAno anoIndex inflacaoPadrao tabela = tabela.get ⟨anoIndex - 1, h⟩)
    ∧ (tabela.length ≤ anoIndex - 1 → ∀ h : tabela ≠ [],
        inflacaoAnualDoAno anoIndex inflacaoPadrao tabela = tabela.getLast h) := by
  refine ⟨?_, ?_, ?_⟩
  · intro h
    subst h
    rfl
  · intro h
    have hne : tabela.length ≠ 0 := by omega
    simp [inflacaoAnualDoAno, hne, h, List.getD_eq_getElem?_getD, List.getElem?_eq_getElem h]
  · intro hle h
    have hne : tabela.length ≠ 0 := fun hz => h (List.length_eq_zero.mp hz)
    have hlt : ¬ (anoIndex - 1 < tabela.length) := by omega
    have hlast : tabela.length - 1 < tabela.length := by omega
    simp [inflacaoAnualDoAno, hne, hlt, List.getD_eq_getElem?_getD,
      List.getElem?_eq_getElem hlast, List.getLast_eq_getElem]

theorem C7_witness :
    (1 ≤ 2 ∧ inflacaoAnualDoAno 2 (3 : ℚ) [5, 7] = 7)
    ∧ (1 ≤ 9 ∧ inflacaoAnualDoAno 9 (3 : ℚ) [5, 7] = 7)
    ∧ (1 ≤ 1 ∧ inflacaoAnualDoAno 1 (3 : ℚ) [] = 3) :=
  ⟨⟨by decide, ((C7_inflacao_anual_do_ano 2 (by decide) 3 [5, 7]).2.1 (by decide)).trans rfl⟩,
   ⟨by decide, ((C7_inflacao_anual_do_ano 9 (by decide) 3 [5, 7]).2.2 (by decide)
      (by decide)).trans rfl⟩,
   ⟨by decide, (C7_inflacao_anual_do_ano 1 (by decide) 3 []).1 rfl⟩⟩

/-- C2: For every month m ≥ 1, `aporteNoMes` uses the adjustment-year
index ⌊m/12⌋; under the anual_pct policy with rate g the contribution is
base × (1+g)^⌊m/12⌋, so months 1..11 pay the unadjusted base and month 12
pays base × (1+g): the annual step lands exactly at months 12, 24, 36, …,
never at month 11. -/
theorem C2_anual_pct_boundary (m : ℕ) (h1 : 1 ≤ m) (base g inflacaoAnual : ℚ)
    (tabela : List ℚ) :
    aporteNoMes m base (.anual_pct g) inflacaoAnual tabela = base * (1 + g) ^ (m / 12)
    ∧ (m ≤ 11 → aporteNoMes m base (.anual_pct g) inflacaoAnual tabela = base)
    ∧ (m = 12 → aporteNoMes m base (.anual_pct g) inflacaoAnual tabela = base * (1 + g)) := by
  refine ⟨rfl, ?_, ?_⟩
  · intro h11
    have hz : m / 12 = 0 := Nat.div_eq_of_lt (by omega)
    simp [aporteNoMes, hz]
  · intro h12
    subst h12
    simp [aporteNoMes]

theorem C2_witness :
    (1 ≤ 11 ∧ aporteNoMes 11 (200 : ℚ) (.anual_pct (1/10)) 0 [] = 200)
    ∧ (1 ≤ 12 ∧ aporteNoMes 12 (200 : ℚ) (.anual_pct (1/10)) 0 [] = 200 * (1 + 1/10)) :=
  ⟨⟨by decide, (C2_anual_pct_boundary 11 (by decide) 200 (1/10) 0 []).2.1 (by decide)⟩,
   ⟨by decide, (C2_anual_pct_boundary 12 (by decide) 200 (1/10) 0 []).2.2 rfl⟩⟩

/-- C4 counterexample: the claim that every core function behaves as if
its rate inputs were floored at −0.99 is false — `inflacaoAnualDoAno`
(and through it the whole projection) uses a default rate of −2
literally, which differs from the result at the floored rate −0.99. -/
theorem C4_counterexample :
    inflacaoAnualDoAno 1 (-2) [] ≠ inflacaoAnualDoAno 1 (max (-2) (-(99 : ℚ)/100)) [] := by
  with_unfolding_all decide

/-- C4 amended: the −0.99 floor exists only where rates enter from free
text — `parseInflacaoTabela` clamps each parsed schedule entry, so every
entry of the resulting schedule is ≥ −0.99 and its 1+rate multiplier is
strictly positive; the core computation functions themselves apply no
flooring to their rate arguments. -/
theorem C4_clamp_floor (xs : List ℚ) (y : ℚ)
    (hy : y ∈ parseInflacaoTabelaClamp xs) :
    -(99 : ℚ)/100 ≤ y ∧ 0 < 1 + y := by
  rcases List.mem_map.mp hy with ⟨x, -, rfl⟩
  have hle : -(99 : ℚ)/100 ≤ max (-(99 : ℚ)/100) x := le_max_left _ _
  exact ⟨hle, by linarith⟩

theorem C4_witness :
    (-(99 : ℚ)/100) ∈ parseInflacaoTabelaClamp [-2, 1/2]
    ∧ (-(99 : ℚ)/100 ≤ -(99 : ℚ)/100 ∧ 0 < 1 + (-(99 : ℚ)/100)) :=
  ⟨by with_unfolding_all decide, C4_clamp_floor [-2, 1/2] (-(99 : ℚ)/100)
    (by with_unfolding_all decide)⟩

/-- C3: the targetReachedMonth of the projection is the first-match search
over months 0..horizon of the post-update balance reaching the target:
it is 0 when the seed balance (`saldoContribIter _ _ 0` = initial amount)
already meets the target, otherwise the smallest month whose post-update
balance is ≥ meta, `none` when no month qualifies; being a first match it
is never overwritten once set, even if the balance later drops below the
target. -/
theorem C3_mesAlvo_first_match (pw : ℚ → ℚ) (p : ProjecaoParams) :
    (calcularProjecao pw p).mesAlvo =
      (List.range (mesesLimiteDef p.anosLimite + 1)).find?
        (fun m => decide ((saldoContribIter pw p m).1 ≥ p.meta)) := by
  rw [calcularProjecao_mesAlvo, mesAlvoIter_eq_find]

/-- C1: for every month m in 1..horizon, the recorded balance of month m
is obtained from the balance of month m−1 by the update: effective
monthly rate r = (1 + taxaMensalNominalConst)/(1 + monthly inflation of
m) − 1 when usarTaxaReal, else the constant taxaMensalNominalConst =
(1+rentabAnual)^(1/12) − 1 (here `pw (1+rentabAnual) − 1`), independent
of inflation; then new = (old + contribution) × (1+r) under
start-of-month contributions, and new = old × (1+r) + contribution under
end-of-month contributions (the contribution earns no growth that
month). -/
theorem C1_balance_update (pw : ℚ → ℚ) (p : ProjecaoParams) (m : ℕ)
    (h1 : 1 ≤ m) (h2 : m ≤ mesesLimiteDef p.anosLimite) :
    ((calcularProjecao pw p).dados[m - 1]?).map ProjecaoDado.saldo =
        some ((saldoContribIter pw p (m - 1)).1)
    ∧ ((calcularProjecao pw p).dados[m]?).map ProjecaoDado.saldo =
        some
          (if p.contribuicaoNoInicio then
            ((saldoContribIter pw p (m - 1)).1 +
                aporteNoMes m p.aporteMensal p.politicaAporte p.inflacaoAnual p.inflacaoTabela) *
              (1 + (if p.usarTaxaReal then
                      (1 + (pw (1 + p.rentabAnual) - 1)) /
                        (1 + inflacaoMensalDoMes pw m p.inflacaoAnual p.inflacaoTabela) - 1
                    else pw (1 + p.rentabAnual) - 1))
          else
            (saldoContribIter pw p (m - 1)).1 *
              (1 + (if p.usarTaxaReal then
                      (1 + (pw (1 + p.rentabAnual) - 1)) /
                        (1 + inflacaoMensalDoMes pw m p.inflacaoAnual p.inflacaoTabela) - 1
                    else pw (1 + p.rentabAnual) - 1)) +
              aporteNoMes m p.aporteMensal p.politicaAporte p.inflacaoAnual p.inflacaoTabela) := by
  obtain ⟨k, rfl⟩ : ∃ k, m = k + 1 := ⟨m - 1, by omega⟩
  constructor
  · rw [calcularProjecao_dados_getElem pw p (k + 1 - 1) (by omega)]
    simp [recordDef]
  · rw [calcularProjecao_dados_getElem pw p (k + 1) h2]
    simp only [Option.map_some', recordDef, Nat.add_sub_cancel]
    congr 1
    rw [saldoContribIter]
    simp only [stepSaldo, taxaEfetivaDef]
    by_cases hc : p.contribuicaoNoInicio <;> simp [hc]

/-- Concrete parameters exercising C1: three-month horizon, start-of-month
contributions, nominal rate doubling the balance each month. -/
def pC1 : ProjecaoParams :=
  { montanteInicial := 10, aporteMensal := 5, rentabAnual := 1, meta := 1000,
    anosLimite := 1/4, contribuicaoNoInicio := true, usarTaxaReal := false,
    inflacaoAnual := 0, inflacaoTabela := [], politicaAporte := .constante }

theorem C1_witness :
    1 ≤ 2 ∧ 2 ≤ mesesLimiteDef pC1.anosLimite ∧
    (((calcularProjecao id pC1).dados[1]?).map ProjecaoDado.saldo = some 30
     ∧ ((calcularProjecao id pC1).dados[2]?).map ProjecaoDado.saldo = some 70) := by
  have h2 : 2 ≤ mesesLimiteDef pC1.anosLimite := by with_unfolding_all decide
  refine ⟨by decide, h2, ?_⟩
  with_unfolding_all
    exact C1_balance_update id pC1 2 (by decide) h2

/-- C9: with zero initial amount, zero annual return, zero inflation, no
schedule, nominal rates (usarTaxaReal = false), constant contribution A,
start-of-month contributions and a horizon of n months, the balance at
record n is exactly n × A (no compounding effect).  The hypothesis
`pw 1 = 1` is the defining fact 1^(1/12) = 1 of the abstracted twelfth
root. -/
theorem C9_zero_rate_linear (pw : ℚ → ℚ) (hpw : pw 1 = 1) (A meta : ℚ) (n : ℕ)
    (hn : 1 ≤ n) :
    ((calcularProjecao pw
        { montanteInicial := 0, aporteMensal := A, rentabAnual := 0, meta := meta,
          anosLimite := (n : ℚ)/12, contribuicaoNoInicio := true, usarTaxaReal := false,
          inflacaoAnual := 0, inflacaoTabela := [], politicaAporte := .constante
          }).dados[n]?).map ProjecaoDado.saldo = some ((n : ℚ) * A) := by
  set p : ProjecaoParams :=
    { montanteInicial := 0, aporteMensal := A, rentabAnual := 0, meta := meta,
      anosLimite := (n : ℚ)/12, contribuicaoNoInicio := true, usarTaxaReal := false,
      inflacaoAnual := 0, inflacaoTabela := [], politicaAporte := .constante } with hp
  have hml : mesesLimiteDef p.anosLimite = n := by
    have h12 : ((n : ℚ)/12) * 12 = (n : ℚ) := div_mul_cancel₀ _ (by norm_num)
    rw [hp]
    unfold mesesLimiteDef
    rw [h12, Int.floor_natCast, Int.toNat_natCast]
    omega
  have hsaldo : ∀ m : ℕ, saldoContribIter pw p m = ((m : ℚ) * A, (m : ℚ) * A) := by
    intro m
    induction m with
    | zero => simp [saldoContribIter, hp]
    | succ k ih =>
        rw [saldoContribIter, ih]
        simp only [stepSaldo, taxaEfetivaDef, aporteNoMes, hp]
        norm_num [hpw]
        ring
  rw [calcularProjecao_dados_getElem pw p n (by omega)]
  simp [recordDef, hsaldo n]

theorem C9_witness :
    id (1 : ℚ) = 1 ∧ 1 ≤ 3 ∧
    ((calcularProjecao id
        { montanteInicial := 0, aporteMensal := 7, rentabAnual := 0, meta := 100,
          anosLimite := ((3 : ℕ) : ℚ)/12, contribuicaoNoInicio := true,
          usarTaxaReal := false, inflacaoAnual := 0, inflacaoTabela := [],
          politicaAporte := .constante }).dados[3]?).map ProjecaoDado.saldo = some 21 := by
  refine ⟨rfl, by decide, ?_⟩
  with_unfolding_all
    exact C9_zero_rate_linear id rfl 7 100 3 (by decide)

/-- C10: the final-balance lookup of `aporteNecessario` is total for every
input: the optional access at any index (in particular at nMeses =
max(1, round(anos×12)), which can exceed the series' largest index
max(1, floor(anos×12)), e.g. at anos = 11/24 where nMeses = 6 but the
largest index is 5) falls back to the last record, which always exists
because `calcularProjecao` unconditionally pushes the seed record before
its loop — the fallback branch never dereferences a missing element. -/
theorem C10_lookup_total :
    (∀ (pw : ℚ → ℚ) (p : ProjecaoParams) (nM : ℕ),
        (saldoFinalLookup ((calcularProjecao pw p).dados) nM).isSome = true)
    ∧ nMesesDef (11/24) = 6 ∧ mesesLimiteDef (11/24) = 5 := by
  refine ⟨?_, by with_unfolding_all rfl, by with_unfolding_all rfl⟩
  intro pw p nM
  unfold saldoFinalLookup
  cases h : ((calcularProjecao pw p).dados)[nM]? with
  | some d => simp
  | none =>
      have hlen : ((calcularProjecao pw p).dados).length = mesesLimiteDef p.anosLimite + 1 := by
        rw [calcularProjecao_dados]
        simp
      simp only [hlen, Nat.add_sub_cancel]
      rw [calcularProjecao_dados, List.getElem?_map,
        List.getElem?_range (Nat.lt_succ_self _)]
      simp

/-- Bisection invariant: each step replaces `hi` only by a midpoint at
which the predicate holds, so a `hi` satisfying the predicate keeps
satisfying it through every step. -/
theorem bisectAporte_pred_hi (P : ℚ → Bool) :
    ∀ (n : ℕ) (lo hi : ℚ), P hi = true → P (bisectAporte P n lo hi).2 = true := by
  intro n
  induction n with
  | zero => intro lo hi h; exact h
  | succ k ih =>
      intro lo hi h
      rw [bisectAporte]
      by_cases hm : P ((lo + hi) / 2) = true
      · simp only [hm, if_true]
        exact ih lo _ hm
      · simp only [hm, if_false]
        exact ih _ hi h

/-- C8: if the success predicate `atingeMetaComAporte` holds at the upper
bound produced by the doubling phase, it holds at the value
`aporteNecessario` returns — the returned contribution is sufficient
(an over-approximation), never insufficient. -/
theorem C8_bisection_sufficient (pw : ℚ → ℚ) (cfg : AporteParams)
    (h : atingeMetaComAporte pw cfg
        (doublePhase (atingeMetaComAporte pw cfg) 50 (aporteHiInicial cfg)) = true) :
    atingeMetaComAporte pw cfg (aporteNecessario pw cfg) = true :=
  bisectAporte_pred_hi (atingeMetaComAporte pw cfg) 80 0
    (doublePhase (atingeMetaComAporte pw cfg) 50 (aporteHiInicial cfg)) h

/-- Concrete parameters exercising C8: the target 0 is met by the seed
balance, so the success predicate holds everywhere, in particular at the
doubling phase's output. -/
def cfgC8 : AporteParams :=
  { montanteInicial := 0, rentabAnual := 0, anos := 1/12, meta := 0,
    contribuicaoNoInicio := true, usarTaxaReal := false, inflacaoAnual := 0,
    inflacaoTabela := [], politicaAporte := .constante }

theorem C8_witness :
    atingeMetaComAporte id cfgC8
        (doublePhase (atingeMetaComAporte id cfgC8) 50 (aporteHiInicial cfgC8)) = true
    ∧ atingeMetaComAporte id cfgC8 (aporteNecessario id cfgC8) = true := by
  have h : atingeMetaComAporte id cfgC8
      (doublePhase (atingeMetaComAporte id cfgC8) 50 (aporteHiInicial cfgC8)) = true := by
    with_unfolding_all decide
  exact ⟨h, C8_bisection_sufficient id cfgC8 h⟩

/-- Once `found` is set, the rate-search loop can never return `none`. -/
theorem taxaLoop_some_ne_none (isFin : ℚ → Bool) (sf : ℚ → ℚ) (meta : ℚ) :
    ∀ (i : ℕ) (lo hi x : ℚ), taxaLoop isFin sf meta i lo hi (some x) ≠ none := by
  intro i
  induction i with
  | zero => intro lo hi x h; exact Option.noConfusion h
  | succ k ih =>
      intro lo hi x
      rw [taxaLoop]
      by_cases hf : isFin (sf ((lo + hi) / 2)) = false
      · simp only [hf, if_true]
        exact fun h => Option.noConfusion h
      · simp only [hf, if_false]
        by_cases hm : sf ((lo + hi) / 2) ≥ meta
        · simp only [hm, if_true]
          exact ih _ _ _
        · simp only [hm, if_false]
          exact ih _ _ _

/-- The rate-search loop started with no `found` value returns `none`
exactly when no evaluated midpoint had a finite balance ≥ meta. -/
theorem taxaLoop_none_iff (isFin : ℚ → Bool) (sf : ℚ → ℚ) (meta : ℚ) :
    ∀ (i : ℕ) (lo hi : ℚ),
      (taxaLoop isFin sf meta i lo hi none = none ↔
        taxaLoopAcha isFin sf meta i lo hi = false) := by
  intro i
  induction i with
  | zero => intro lo hi; simp [taxaLoop, taxaLoopAcha]
  | succ k ih =>
      intro lo hi
      rw [taxaLoop, taxaLoopAcha]
      by_cases hf : isFin (sf ((lo + hi) / 2)) = false
      · simp only [hf, if_true]
      · simp only [hf, if_false]
        by_cases hm : sf ((lo + hi) / 2) ≥ meta
        · simp only [hm, if_true]
          constructor
          · intro h; exact absurd h (taxaLoop_some_ne_none isFin sf meta k lo _ _)
          · intro h; exact Bool.noConfusion h
        · simp only [hm, if_false]
          exact ih _ _

/-- C5: `taxaNecessaria` returns null exactly when no candidate midpoint
evaluated during its at-most-160 bisection iterations over monthly rates
starting from the bracket [−0.9, 1.0] produced a finite simulated final
balance ≥ meta; a non-finite balance ends the search early without any
error — the embedding is a total function, so the caller is never
crashed, and failure is visible only as the `none` result. -/
theorem C5_null_iff_no_finite_hit (isFin : ℚ → Bool) (pw : ℚ → ℚ) (cfg : TaxaParams) :
    taxaNecessaria isFin pw cfg = none ↔
      taxaLoopAcha isFin (saldoFinalComTaxa pw cfg) cfg.meta 160 (-(9 : ℚ)/10) 1 = false := by
  unfold taxaNecessaria
  cases h : taxaNecessariaMensal isFin pw cfg with
  | none =>
      exact iff_of_true rfl
        ((taxaLoop_none_iff isFin (saldoFinalComTaxa pw cfg) cfg.meta 160 (-(9 : ℚ)/10) 1).mp h)
  | some found =>
      refine iff_of_false (fun hh => Option.noConfusion hh) (fun hacha => ?_)
      have : taxaNecessariaMensal isFin pw cfg = none :=
        (taxaLoop_none_iff isFin (saldoFinalComTaxa pw cfg) cfg.meta 160 (-(9 : ℚ)/10) 1).mpr hacha
      rw [h] at this
      exact Option.noConfusion this

/-- Folding addition from an accumulator is the accumulator plus the sum. -/
theorem foldl_add_eq_sum (l : List ℚ) : ∀ a : ℚ, l.foldl (fun acc v => acc + v) a = a + l.sum := by
  induction l with
  | nil => intro a; simp
  | cons x xs ih => intro a; simp [ih, add_assoc]

/-- C6: when the rate search succeeds with monthly rate rM, the returned
annual figure is rAnualReal = (1+rM)^12 − 1 when usarTaxaReal is false,
and (1 + rAnualReal) × (1 + m) − 1 when usarTaxaReal is true, where m is
the unweighted arithmetic mean of the inflation schedule when non-empty
and the flat default annual inflation otherwise. -/
theorem C6_annual_conversion (isFin : ℚ → Bool) (pw : ℚ → ℚ) (cfg : TaxaParams) (rM : ℚ)
    (h : taxaNecessariaMensal isFin pw cfg = some rM) :
    taxaNecessaria isFin pw cfg =
      some (if cfg.usarTaxaReal = true then
              (1 + ((1 + rM) ^ 12 - 1)) *
                (1 + (if cfg.inflacaoTabela = [] then cfg.inflacaoAnual
                      else cfg.inflacaoTabela.sum / (cfg.inflacaoTabela.length : ℚ))) - 1
            else (1 + rM) ^ 12 - 1) := by
  unfold taxaNecessaria
  rw [h]
  unfold toAnualNominal inflacaoMediaAnualDef
  by_cases hu : cfg.usarTaxaReal = true <;>
    by_cases ht : cfg.inflacaoTabela = [] <;>
      simp [hu, ht, List.length_eq_zero, foldl_add_eq_sum]

/-- Finiteness oracle for the C6 witness: only the first midpoint's
simulated balance counts as finite, so the search stops right after its
first success. -/
def isFinC6 : ℚ → Bool := fun s => decide (s = 21/20)

/-- Concrete parameters exercising C6: one month, no contribution, unit
principal, so the simulated final balance at monthly rate r is 1 + r. -/
def cfgC6 : TaxaParams :=
  { montanteInicial := 1, aporteMensal := 0, anos := 1/12, meta := 21/20,
    contribuicaoNoInicio := false, usarTaxaReal := true, inflacaoAnual := 0,
    inflacaoTabela := [], politicaAporte := .constante }

theorem C6_witness :
    taxaNecessariaMensal isFinC6 id cfgC6 = some (1/20)
    ∧ taxaNecessaria isFinC6 id cfgC6 =
        some (if cfgC6.usarTaxaReal = true then
                (1 + ((1 + (1/20 : ℚ)) ^ 12 - 1)) *
                  (1 + (if cfgC6.inflacaoTabela = [] then cfgC6.inflacaoAnual
                        else cfgC6.inflacaoTabela.sum / (cfgC6.inflacaoTabela.length : ℚ))) - 1
              else (1 + (1/20 : ℚ)) ^ 12 - 1) := by
  have h : taxaNecessariaMensal isFinC6 id cfgC6 = some (1/20) := by
    with_unfolding_all decide
  exact ⟨h, C6_annual_conversion isFinC6 id cfgC6 (1/20) h⟩
